import Mathlib

/-!
Verification of the single-table product-catalog core
(`src/config/settings.py`, `src/utils/db_operations.py`, the three model
files and the product service) against its natural-language specification.

The Python code is shallowly embedded: runtime values crossing the
DynamoDB boundary become the inductive `Val`, items become association
lists of attributes, the table becomes an association list keyed by the
partition/sort key pair, and every operation is a pure function that
threads the table state explicitly.  Exceptions become an explicit error
type returned in `Except`.
-/

namespace Catalog

/-- A Python runtime value as it appears in items and requests: `None`,
`int`, `float` (represented by its shortest decimal form `m / 10 ^ e`,
which is what `str(f)` prints and what `Decimal(str(f))` parses),
`Decimal` (an exact decimal `m / 10 ^ e`), `str`, or `list`.  The only
lists this code ever stores or receives are lists of strings (image
URLs), so list values carry strings. -/
inductive Val : Type where
  | vnull : Val
  | vint : Int → Val
  | vfloat : Int → Nat → Val
  | vdec : Int → Nat → Val
  | vstr : String → Val
  | vlist : List String → Val
deriving DecidableEq, Repr

/-- The numeric content of a value, as a pair `m / 10 ^ e`, when the value
is a Python number. -/
def Val.num? : Val → Option (Int × Nat)
  | .vint n => some (n, 0)
  | .vfloat m e => some (m, e)
  | .vdec m e => some (m, e)
  | _ => none

/-- Python `==`: numbers compare by numeric value across `int`, `float`
and `Decimal`; strings and lists compare structurally; `None` equals only
`None`; mixed non-numeric types are unequal. -/
def pyEq : Val → Val → Bool
  | .vstr a, .vstr b => a == b
  | .vlist a, .vlist b => a == b
  | .vnull, .vnull => true
  | a, b =>
    match a.num?, b.num? with
    | some (m₁, e₁), some (m₂, e₂) => m₁ * (10 : Int) ^ e₂ == m₂ * (10 : Int) ^ e₁
    | _, _ => false

/-- Python truthiness: `None`, `0`, `0.0`, `""` and `[]` are falsy. -/
def pyTruthy : Val → Bool
  | .vnull => false
  | .vint n => n != 0
  | .vfloat m _ => m != 0
  | .vdec m _ => m != 0
  | .vstr s => s != ""
  | .vlist xs => !xs.isEmpty

/-- Strip trailing decimal zeros: the shortest decimal form of
`m / 10 ^ e`, as produced by `str()` on a float or by `float()` on a
`Decimal`. -/
def normDec : Int → Nat → Int × Nat
  | m, 0 => (m, 0)
  | m, e + 1 => if m % 10 == 0 then normDec (m / 10) e else (m, e + 1)

/-- `DynamoDbClient._convert_floats_to_decimal`: recursively convert
every `float` to an exact `Decimal` (via `Decimal(str(obj))`, i.e. the
same decimal digits); strings, ints and (string-)lists pass through. -/
def convFloatsToDec : Val → Val
  | .vfloat m e => .vdec m e
  | v => v

/-- `DynamoDbClient._convert_decimal_to_float`: recursively convert every
`Decimal` back, whole numbers to `int` and the rest to `float`; other
values pass through. -/
def convDecToFloat : Val → Val
  | .vdec m e =>
    if (10 : Int) ^ e ∣ m then .vint (m / (10 : Int) ^ e)
    else
      let p := normDec m e
      .vfloat p.1 p.2
  | v => v

/-- A stored or returned item: an attribute map in insertion order. -/
abbrev Item := List (String × Val)

/-- Attribute lookup (`item.get(k)` when present). -/
def getAttr? : Item → String → Option Val
  | [], _ => none
  | (k₁, v₁) :: t, k => if k₁ = k then some v₁ else getAttr? t k

/-- `item.get(k, d)`. -/
def getAttrD (it : Item) (k : String) (d : Val) : Val :=
  (getAttr? it k).getD d

/-- The string content of an attribute, defaulting when absent or not a
string. -/
def getStrD (it : Item) (k : String) (d : String) : String :=
  match getAttr? it k with
  | some (.vstr s) => s
  | _ => d

/-- Dict assignment `item[k] = v`: replace in place, or append. -/
def setAttr : Item → String → Val → Item
  | [], k, v => [(k, v)]
  | (k₁, v₁) :: t, k, v => if k₁ = k then (k, v) :: t else (k₁, v₁) :: setAttr t k v

/-- `k in item`. -/
def hasAttr (it : Item) (k : String) : Bool :=
  (getAttr? it k).isSome

/-- `del item[k]`. -/
def delAttr (it : Item) (k : String) : Item :=
  it.filter (fun p => p.1 ≠ k)

/-- Apply a conversion to every attribute value. -/
def mapVals (f : Val → Val) : Item → Item
  | [] => []
  | (k, v) :: t => (k, f v) :: mapVals f t

/-- Modelled from the spec: the error taxonomy of §7 — `utils/exceptions.py`
is imported throughout the sources but is not among them; the spec fixes the
four domain error kinds.  The two extra constructors stand for exceptions the
Python runtime itself raises (`TypeError`, `AttributeError`), which are not
part of the taxonomy. -/
inductive Err : Type where
  | validationError (msg : String)
  | duplicateError (msg : String)
  | notFoundError (msg : String)
  | databaseError (msg : String)
  | pyTypeError (msg : String)
  | pyAttributeError (msg : String)
deriving DecidableEq, Repr

deriving instance DecidableEq for Except

/-- Whether an error belongs to the documented four-kind taxonomy. -/
def Err.inTaxonomy : Err → Bool
  | .pyTypeError _ => false
  | .pyAttributeError _ => false
  | _ => true

/-- The single logical table plus a fault-injection flag for the GSI-3
query path (a `ClientError` from the underlying store on `query`). -/
structure DB : Type where
  table : List ((String × String) × Item)
  gsi3Fails : Bool := false
deriving DecidableEq, Repr

/-- First item stored under a partition/sort key pair. -/
def lookupTable : List ((String × String) × Item) → String → String → Option Item
  | [], _, _ => none
  | (k, it) :: t, pk, sk => if k.1 = pk ∧ k.2 = sk then some it else lookupTable t pk sk

/-- Drop every entry stored under a key pair. -/
def eraseTable : List ((String × String) × Item) → String → String → List ((String × String) × Item)
  | [], _, _ => []
  | (k, it) :: t, pk, sk =>
    if k.1 = pk ∧ k.2 = sk then eraseTable t pk sk else (k, it) :: eraseTable t pk sk

/-- Replace every entry stored under a key pair by a new item. -/
def replaceTable : List ((String × String) × Item) → String → String → Item →
    List ((String × String) × Item)
  | [], _, _, _ => []
  | (k, it) :: t, pk, sk, nit =>
    if k.1 = pk ∧ k.2 = sk then (k, nit) :: replaceTable t pk sk nit
    else (k, it) :: replaceTable t pk sk nit

/-- Python whitespace, as stripped by `str.strip()` (ASCII part). -/
def isPySpace (c : Char) : Bool :=
  c = ' ' || c = '\t' || c = '\n' || c = '\r' || c = '\x0b' || c = '\x0c'

/-- `str.strip()`. -/
def pyStrip (s : String) : String :=
  ⟨((s.data.dropWhile isPySpace).reverse.dropWhile isPySpace).reverse⟩

/-- `str.upper()` (ASCII). -/
def pyUpper (s : String) : String :=
  ⟨s.data.map Char.toUpper⟩

/-- `str.lower()` (ASCII). -/
def pyLower (s : String) : String :=
  ⟨s.data.map Char.toLower⟩

/-- Character class of the brand/category name pattern
`[a-zA-Z0-9\s\-_&.]`. -/
def brandNameChar (c : Char) : Bool :=
  c.isAlphanum || isPySpace c || c = '-' || c = '_' || c = '&' || c = '.'

/-- `re.match` of `^[a-zA-Z0-9\s\-_&.]+$` against the whole name. -/
def matchBrandName (s : String) : Bool :=
  !s.isEmpty && s.data.all brandNameChar

/-- Character class of the product name pattern
`[a-zA-Z0-9\s\-_&.,()'"/!+]`. -/
def productNameChar (c : Char) : Bool :=
  brandNameChar c || c = ',' || c = '(' || c = ')' || c = '\x27' || c = '"' ||
    c = '/' || c = '!' || c = '+'

/-- `re.match` of the product-name pattern against the whole name. -/
def matchProductName (s : String) : Bool :=
  !s.isEmpty && s.data.all productNameChar

/-- `uuid.UUID(s)` succeeds: hyphens removed and braces stripped, the
remainder must be exactly 32 hexadecimal digits (the `urn:uuid:` form the
stdlib also accepts is not modelled; every id in this system is
canonical). -/
def isUuid (s : String) : Bool :=
  let cs := s.data.filter (fun c => c ≠ '-' && c ≠ '\x7b' && c ≠ '\x7d')
  cs.length == 32 && cs.all (fun c =>
    c.isDigit || ('a' ≤ c && c ≤ 'f') || ('A' ≤ c && c ≤ 'F'))

/-- `s` starts with `p` (character-list computation). -/
def strStartsW (s p : String) : Bool :=
  s.data.take p.data.length == p.data

/-- `s` ends with `p` (character-list computation). -/
def strEndsW (s p : String) : Bool :=
  s.data.drop (s.data.length - p.data.length) == p.data

/-- A `://` separator occurs with a non-empty remainder after it. -/
def hasSchemeSep : List Char → Bool
  | ':' :: '/' :: '/' :: rest => !rest.isEmpty
  | _ :: rest => hasSchemeSep rest
  | [] => false

/-- Models the external `validators.url` library on the URLs this system
sees: a non-empty scheme, `://`, and a non-empty remainder. -/
def validatorsUrl (s : String) : Bool :=
  !strStartsW s "://" && hasSchemeSep s.data

/-- A name ends with one of the image extensions and has a non-empty body
between scheme and extension. -/
def endsWithImageExt (t : String) : Bool :=
  [".jpg", ".jpeg", ".png", ".gif", ".webp"].any
    (fun e => strEndsW t e && t.length > e.length + 7)

/-- The image-URL pattern `^https?://.+\.(jpg|jpeg|png|gif|webp)(\?.*)?$`
with `re.IGNORECASE`, on the inputs of interest: after lower-casing, an
http(s) URL whose path (before an optional `?` query) carries an image
extension. -/
def imageUrlOk (s : String) : Bool :=
  let l := pyLower s
  (strStartsW l "http://" || strStartsW l "https://") &&
    (endsWithImageExt l ||
      (l.data.any (fun c => c = '?') &&
        endsWithImageExt ⟨l.data.takeWhile (fun c => c ≠ '?')⟩))

/-- `settings.get_brand_pk`. -/
def get_brand_pk (brand_id : String) : String := "BRAND#" ++ brand_id

/-- `settings.get_brand_sk`. -/
def get_brand_sk (brand_id : String) : String := "BRAND#" ++ brand_id

/-- `settings.get_category_pk`. -/
def get_category_pk (category_id : String) : String := "CATEGORY#" ++ category_id

/-- `settings.get_category_sk`. -/
def get_category_sk (category_id : String) : String := "CATEGORY#" ++ category_id

/-- `settings.get_product_pk`. -/
def get_product_pk (product_id : String) : String := "PRODUCT#" ++ product_id

/-- `settings.get_product_sk`. -/
def get_product_sk (product_id : String) : String := "PRODUCT#" ++ product_id

/-- `DynamoDbClient.put_item`: the item, with floats made exact decimals,
is stored under the `(PK, SK)` attributes it carries, replacing any item
already stored under that key. -/
def put_item (item : Item) (db : DB) : DB :=
  let pk := getStrD item "PK" ""
  let sk := getStrD item "SK" ""
  { db with table := ((pk, sk), mapVals convFloatsToDec item) :: eraseTable db.table pk sk }

/-- `DynamoDbClient.get_item`: point read, decimals rendered back as
ints/floats. -/
def get_item (pk sk : String) (db : DB) : Option Item :=
  (lookupTable db.table pk sk).map (mapVals convDecToFloat)

/-- Apply an update map attribute by attribute (the dynamically built
`SET` expression), floats made exact decimals on the way in. -/
def applyUpdates (it : Item) : List (String × Val) → Item
  | [] => it
  | (k, v) :: rest => applyUpdates (setAttr it k (convFloatsToDec v)) rest

/-- `DynamoDbClient.update_item` without a condition expression: DynamoDB
upserts — an absent key yields a fresh item holding just the key and the
updated attributes.  With `ReturnValues=ALL_NEW` the updated attribute
map is always returned, so the code's `None` branch never fires. -/
def update_item (pk sk : String) (updates : List (String × Val)) (db : DB) : Item × DB :=
  match lookupTable db.table pk sk with
  | some it =>
    let it₂ := applyUpdates it updates
    (mapVals convDecToFloat it₂, { db with table := replaceTable db.table pk sk it₂ })
  | none =>
    let it₂ := applyUpdates [("PK", .vstr pk), ("SK", .vstr sk)] updates
    (mapVals convDecToFloat it₂, { db with table := ((pk, sk), it₂) :: db.table })

/-- `DynamoDbClient.delete_item`: with `ReturnValues=ALL_OLD`, the old
item comes back when one was stored, `None` otherwise. -/
def delete_item (pk sk : String) (db : DB) : Option Item × DB :=
  match lookupTable db.table pk sk with
  | some it =>
    (some (mapVals convDecToFloat it), { db with table := eraseTable db.table pk sk })
  | none => (none, db)

/-- `DynamoDbClient.check_item_exists`: minimal-projection read. -/
def check_item_exists (pk sk : String) (db : DB) : Bool :=
  (lookupTable db.table pk sk).isSome

/-- Insert an item into a list kept sorted by the `GSI3SK` attribute. -/
def insertBySortKey (x : Item) : List Item → List Item
  | [] => [x]
  | y :: ys =>
    if getStrD x "GSI3SK" "" ≤ getStrD y "GSI3SK" "" then x :: y :: ys
    else y :: insertBySortKey x ys

/-- Sort items by `GSI3SK`, the order a GSI-3 range query returns. -/
def sortBySortKey : List Item → List Item
  | [] => []
  | x :: xs => insertBySortKey x (sortBySortKey xs)

/-- The items the GSI-3 index holds for a given `GSI3PK` value. -/
def gsi3Items (db : DB) (pkval : String) : List Item :=
  db.table.filterMap (fun e =>
    if getAttrD e.2 "GSI3PK" .vnull = .vstr pkval then some e.2 else none)

/-- `DynamoDbClient.query_gsi3` (no sort-key condition): fails as
`DatabaseError` when the underlying query fails, otherwise returns up to
`limit` items of the partition in `GSI3SK` order, decimals rendered
back. -/
def query_gsi3 (gsi3pk : String) (limit : Nat) (db : DB) : Except Err (List Item) :=
  if db.gsi3Fails then .error (.databaseError "Failed to query GSI3")
  else .ok (((sortBySortKey (gsi3Items db gsi3pk)).take limit).map (mapVals convDecToFloat))

/-- The string a validated string-valued attribute carries. -/
def strOfVal : Val → String
  | .vstr s => s
  | _ => ""

/-- `Brand._validate_name`. -/
def Brand.validate_name (v : Val) : Except Err Unit :=
  if !pyTruthy v then .error (.validationError "Brand name is required")
  else match v with
    | .vstr name₀ =>
      let name := pyStrip name₀
      if name = "" then .error (.validationError "Brand name cannot be empty or whitespace")
      else if name.length < 2 then
        .error (.validationError "Brand name must be at least 2 characters long")
      else if name.length > 100 then
        .error (.validationError "Brand name cannot exceed 100 characters")
      else if !matchBrandName name then
        .error (.validationError "Brand name contains invalid characters")
      else .ok ()
    | _ => .error (.validationError "Brand name must be a string")

/-- `Brand._validate_description`. -/
def Brand.validate_description (v : Val) : Except Err Unit :=
  if !pyTruthy v then .error (.validationError "Brand description is required")
  else match v with
    | .vstr d₀ =>
      let d := pyStrip d₀
      if d = "" then .error (.validationError "Brand description cannot be empty or whitespace")
      else if d.length < 10 then
        .error (.validationError "Brand description must be at least 10 characters long")
      else if d.length > 500 then
        .error (.validationError "Brand description cannot exceed 500 characters")
      else .ok ()
    | _ => .error (.validationError "Brand description must be a string")

/-- `Brand._validate_website`. -/
def Brand.validate_website (v : Val) : Except Err Unit :=
  if !pyTruthy v then .ok ()
  else match v with
    | .vstr w₀ =>
      let w := pyStrip w₀
      if w = "" then .ok ()
      else if !validatorsUrl w then .error (.validationError "Invalid website URL format")
      else if !(strStartsW (pyLower w) "http://" || strStartsW (pyLower w) "https://") then
        .error (.validationError "Website URL must use http or https protocol")
      else .ok ()
    | _ => .error (.validationError "Website must be a string")

/-- `Brand._validate_data`. -/
def Brand.validate_data (name description : String) (website : Option String) :
    Except Err Unit :=
  match Brand.validate_name (.vstr name) with
  | .error e => .error e
  | .ok _ =>
    match Brand.validate_description (.vstr description) with
    | .error e => .error e
    | .ok _ =>
      match website with
      | some w => Brand.validate_website (.vstr w)
      | none => .ok ()

/-- `Brand._name_exists`: queries the `BRAND_LIST` GSI-3 partition
(bounded to 100 items) and compares upper-cased stripped names; any query
failure is swallowed and treated as "name does not exist". -/
def Brand.name_exists (name : String) (exclude_brand_id : Option String) (db : DB) : Bool :=
  if name = "" then false
  else
    match query_gsi3 "BRAND_LIST" 100 db with
    | .error _ => false
    | .ok items =>
      let name_upper := pyUpper (pyStrip name)
      items.any (fun item =>
        let existing_name := pyUpper (pyStrip (getStrD item "name" ""))
        let existing_id := getAttrD item "brand_id" .vnull
        let skip :=
          match exclude_brand_id with
          | some ex => ex ≠ "" && pyEq existing_id (.vstr ex)
          | none => false
        !skip && existing_name == name_upper)

/-- `settings.create_brand_item`. -/
def create_brand_item (brand_id name description : String) (website : Option String)
    (now : String) : Item :=
  [("PK", .vstr (get_brand_pk brand_id)),
   ("SK", .vstr (get_brand_sk brand_id)),
   ("GSI3PK", .vstr "BRAND_LIST"),
   ("GSI3SK", .vstr (pyUpper name)),
   ("entity_type", .vstr "brand"),
   ("brand_id", .vstr brand_id),
   ("name", .vstr name),
   ("description", .vstr description),
   ("created_at", .vstr now),
   ("updated_at", .vstr now)] ++
  (match website with
   | some w => if w ≠ "" then [("website", .vstr w)] else []
   | none => [])

/-- `Brand.create`; `gen_id` is the generated UUID and `now` the
timestamp. -/
def Brand.create (name description : String) (website : Option String)
    (gen_id now : String) (db : DB) : Except Err Item × DB :=
  match Brand.validate_data name description website with
  | .error e => (.error e, db)
  | .ok _ =>
    if Brand.name_exists name none db then
      (.error (.duplicateError "Brand name already exists"), db)
    else
      let item := create_brand_item gen_id name description website now
      (.ok item, put_item item db)

/-- `Brand.get`. -/
def Brand.get (brand_id : String) (db : DB) : Option Item :=
  if brand_id = "" then none
  else get_item (get_brand_pk brand_id) (get_brand_sk brand_id) db

/-- `Brand.exists`. -/
def Brand.entityExists (brand_id : String) (db : DB) : Bool :=
  if brand_id = "" then false
  else check_item_exists (get_brand_pk brand_id) (get_brand_sk brand_id) db

/-- `Brand.update`. -/
def Brand.update (brand_id : String) (updates : List (String × Val)) (now : String)
    (db : DB) : Except Err Item × DB :=
  if !Brand.entityExists brand_id db then (.error (.notFoundError "Brand not found"), db)
  else if updates.any (fun p => !(["name", "description", "website"].contains p.1)) then
    (.error (.validationError "Invalid fields"), db)
  else
    let nameCheck : Except Err Unit :=
      if hasAttr updates "name" then
        match Brand.validate_name (getAttrD updates "name" .vnull) with
        | .error e => .error e
        | .ok _ =>
          if Brand.name_exists (strOfVal (getAttrD updates "name" .vnull)) (some brand_id) db then
            .error (.duplicateError "Brand name already exists")
          else .ok ()
      else .ok ()
    match nameCheck with
    | .error e => (.error e, db)
    | .ok _ =>
      match (if hasAttr updates "description" then
          Brand.validate_description (getAttrD updates "description" .vnull) else .ok ()) with
      | .error e => (.error e, db)
      | .ok _ =>
        match (if hasAttr updates "website" then
            Brand.validate_website (getAttrD updates "website" .vnull) else .ok ()) with
        | .error e => (.error e, db)
        | .ok _ =>
          let u₁ := setAttr updates "updated_at" (.vstr now)
          let u₂ :=
            if hasAttr updates "name" then
              setAttr u₁ "GSI3SK" (.vstr (pyUpper (strOfVal (getAttrD updates "name" .vnull))))
            else u₁
          let r := update_item (get_brand_pk brand_id) (get_brand_sk brand_id) u₂ db
          (.ok r.1, r.2)

/-- `Brand.delete`. -/
def Brand.delete (brand_id : String) (db : DB) : Bool × DB :=
  if !Brand.entityExists brand_id db then (false, db)
  else
    let r := delete_item (get_brand_pk brand_id) (get_brand_sk brand_id) db
    (r.1.isSome, r.2)

/-- `Category._validate_name`. -/
def Category.validate_name (v : Val) : Except Err Unit :=
  if !pyTruthy v then .error (.validationError "Category name is required")
  else match v with
    | .vstr name₀ =>
      let name := pyStrip name₀
      if name = "" then .error (.validationError "Category name cannot be empty or whitespace")
      else if name.length < 2 then
        .error (.validationError "Category name must be at least 2 characters long")
      else if name.length > 100 then
        .error (.validationError "Category name cannot exceed 100 characters")
      else if !matchBrandName name then
        .error (.validationError "Category name contains invalid characters")
      else .ok ()
    | _ => .error (.validationError "Category name must be a string")

/-- `Category._validate_description`. -/
def Category.validate_description (v : Val) : Except Err Unit :=
  if !pyTruthy v then .error (.validationError "Category description is required")
  else match v with
    | .vstr d₀ =>
      let d := pyStrip d₀
      if d = "" then
        .error (.validationError "Category description cannot be empty or whitespace")
      else if d.length < 10 then
        .error (.validationError "Category description must be at least 10 characters long")
      else if d.length > 500 then
        .error (.validationError "Category description cannot exceed 500 characters")
      else .ok ()
    | _ => .error (.validationError "Category description must be a string")

/-- `Category._validate_data`. -/
def Category.validate_data (name description : String) : Except Err Unit :=
  match Category.validate_name (.vstr name) with
  | .error e => .error e
  | .ok _ => Category.validate_description (.vstr description)

/-- `Category._name_exists`: like the brand check, against the
`CATEGORY_LIST` partition; failures swallowed. -/
def Category.name_exists (name : String) (exclude_category_id : Option String) (db : DB) :
    Bool :=
  if name = "" then false
  else
    match query_gsi3 "CATEGORY_LIST" 100 db with
    | .error _ => false
    | .ok items =>
      let name_upper := pyUpper (pyStrip name)
      items.any (fun item =>
        let existing_name := pyUpper (pyStrip (getStrD item "name" ""))
        let existing_id := getAttrD item "category_id" .vnull
        let skip :=
          match exclude_category_id with
          | some ex => ex ≠ "" && pyEq existing_id (.vstr ex)
          | none => false
        !skip && existing_name == name_upper)

/-- `settings.create_category_item` (no `parent_category_id` caller
exists). -/
def create_category_item (category_id name description : String) (now : String) : Item :=
  [("PK", .vstr (get_category_pk category_id)),
   ("SK", .vstr (get_category_sk category_id)),
   ("GSI3PK", .vstr "CATEGORY_LIST"),
   ("GSI3SK", .vstr (pyUpper name)),
   ("entity_type", .vstr "category"),
   ("category_id", .vstr category_id),
   ("name", .vstr name),
   ("created_at", .vstr now),
   ("updated_at", .vstr now)] ++
  (if description ≠ "" then [("description", .vstr description)] else [])

/-- `Category.create`. -/
def Category.create (name description : String) (gen_id now : String) (db : DB) :
    Except Err Item × DB :=
  match Category.validate_data name description with
  | .error e => (.error e, db)
  | .ok _ =>
    if Category.name_exists name none db then
      (.error (.duplicateError "Category name already exists"), db)
    else
      let item := create_category_item gen_id name description now
      (.ok item, put_item item db)

/-- `Category.get`; the source computes both keys with `get_category_pk`
(they are equal strings anyway). -/
def Category.get (category_id : String) (db : DB) : Option Item :=
  if category_id = "" then none
  else get_item (get_category_pk category_id) (get_category_pk category_id) db

/-- `Category.exists`. -/
def Category.entityExists (category_id : String) (db : DB) : Bool :=
  if category_id = "" then false
  else check_item_exists (get_category_pk category_id) (get_category_sk category_id) db

/-- `Category.update`.  When `name` is among the updates the source calls
`Category._name_exists(updates['name'], exclude_brand_id=category_id)`;
`_name_exists` has no parameter named `exclude_brand_id` (its keyword
parameter is `exclude_category_id`), so Python raises `TypeError` at that
call and nothing below it runs. -/
def Category.update (category_id : String) (updates : List (String × Val)) (now : String)
    (db : DB) : Except Err Item × DB :=
  if !Category.entityExists category_id db then
    (.error (.notFoundError "Category not found"), db)
  else if updates.any (fun p => !(["name", "description"].contains p.1)) then
    (.error (.validationError "Invalid fields"), db)
  else if hasAttr updates "name" then
    match Category.validate_name (getAttrD updates "name" .vnull) with
    | .error e => (.error e, db)
    | .ok _ =>
      (.error (.pyTypeError "name_exists got an unexpected keyword argument exclude_brand_id"),
        db)
  else
    match (if hasAttr updates "description" then
        Category.validate_description (getAttrD updates "description" .vnull) else .ok ()) with
    | .error e => (.error e, db)
    | .ok _ =>
      let u₁ := setAttr updates "updated_at" (.vstr now)
      let r := update_item (get_category_pk category_id) (get_category_sk category_id) u₁ db
      (.ok r.1, r.2)

/-- `Category.delete`. -/
def Category.delete (category_id : String) (db : DB) : Bool × DB :=
  if !Category.entityExists category_id db then (false, db)
  else
    let r := delete_item (get_category_pk category_id) (get_category_sk category_id) db
    (r.1.isSome, r.2)

/-- `Product._validate_name`. -/
def Product.validate_name (v : Val) : Except Err Unit :=
  if !pyTruthy v then .error (.validationError "Product name is required")
  else match v with
    | .vstr name₀ =>
      let name := pyStrip name₀
      if name = "" then .error (.validationError "Product name cannot be empty or whitespace")
      else if name.length < 2 then
        .error (.validationError "Product name must be at least 2 characters long")
      else if name.length > 200 then
        .error (.validationError "Product name cannot exceed 200 characters")
      else if !matchProductName name then
        .error (.validationError "Product name contains invalid characters")
      else .ok ()
    | _ => .error (.validationError "Product name must be a string")

/-- `Product._validate_brand_id`. -/
def Product.validate_brand_id (v : Val) : Except Err Unit :=
  if !pyTruthy v then .error (.validationError "Brand ID is required")
  else match v with
    | .vstr b₀ =>
      let b := pyStrip b₀
      if b = "" then .error (.validationError "Brand ID cannot be empty or whitespace")
      else if !isUuid b then .error (.validationError "Brand ID must be a valid UUID")
      else .ok ()
    | _ => .error (.validationError "Brand ID must be a string")

/-- `Product._validate_category_id`. -/
def Product.validate_category_id (v : Val) : Except Err Unit :=
  if !pyTruthy v then .error (.validationError "Category ID is required")
  else match v with
    | .vstr c₀ =>
      let c := pyStrip c₀
      if c = "" then .error (.validationError "Category ID cannot be empty or whitespace")
      else if !isUuid c then .error (.validationError "Category ID must be a valid UUID")
      else .ok ()
    | _ => .error (.validationError "Category ID must be a string")

/-- `Product._validate_price`: `None` is rejected, the value must be an
`int`, `float` or `Decimal`, non-negative, at most 999999.99, and a float
may show at most two decimal places in its `str()` form. -/
def Product.validate_price (v : Val) : Except Err Unit :=
  match v with
  | .vnull => .error (.validationError "Price is required")
  | _ =>
    match v.num? with
    | none => .error (.validationError "Price must be a number")
    | some (m, e) =>
      if m < 0 then .error (.validationError "Price cannot be negative")
      else if m * 100 > 99999999 * (10 : Int) ^ e then
        .error (.validationError "Price cannot exceed 999999.99")
      else
        match v with
        | .vfloat m₁ e₁ =>
          if (normDec m₁ e₁).2 > 2 then
            .error (.validationError "Price cannot have more than 2 decimal places")
          else .ok ()
        | _ => .ok ()

/-- `Product._validate_description` (optional field). -/
def Product.validate_description (v : Val) : Except Err Unit :=
  match v with
  | .vnull => .ok ()
  | .vstr d₀ =>
    let d := pyStrip d₀
    if d = "" then .ok ()
    else if d.length < 10 then
      .error (.validationError "Product description must be at least 10 characters long")
    else if d.length > 1000 then
      .error (.validationError "Product description cannot exceed 1000 characters")
    else .ok ()
  | _ => .error (.validationError "Product description must be a string")

/-- `Product._validate_stock_quantity`: a whole float is accepted as its
integer value; a `Decimal` fails the `isinstance` checks like any other
non-int type. -/
def Product.validate_stock_quantity (v : Val) : Except Err Unit :=
  match v with
  | .vnull => .error (.validationError "Stock quantity is required")
  | .vfloat m e =>
    if !((10 : Int) ^ e ∣ m) then
      .error (.validationError "Stock quantity must be a whole number")
    else if m / (10 : Int) ^ e < 0 then
      .error (.validationError "Stock quantity cannot be negative")
    else if m / (10 : Int) ^ e > 999999 then
      .error (.validationError "Stock quantity cannot exceed 999999")
    else .ok ()
  | .vint n =>
    if n < 0 then .error (.validationError "Stock quantity cannot be negative")
    else if n > 999999 then .error (.validationError "Stock quantity cannot exceed 999999")
    else .ok ()
  | _ => .error (.validationError "Stock quantity must be an integer")

/-- The per-element loop of `Product._validate_images` (elements are
strings by construction of `Val`). -/
def Product.validate_images_loop : List String → Except Err Unit
  | [] => .ok ()
  | u :: rest =>
    let u₁ := pyStrip u
    if u₁ = "" then .error (.validationError "Image URL cannot be empty")
    else if !imageUrlOk u₁ then
      .error (.validationError "Image must be a valid image URL")
    else Product.validate_images_loop rest

/-- `Product._validate_images` (optional field). -/
def Product.validate_images (v : Val) : Except Err Unit :=
  match v with
  | .vnull => .ok ()
  | .vlist xs =>
    if xs.length > 10 then .error (.validationError "Cannot have more than 10 images")
    else Product.validate_images_loop xs
  | _ => .error (.validationError "Images must be a list")

/-- `Product._validate_data`. -/
def Product.validate_data (name brand_id category_id : String)
    (price description stock_quantity images : Val) : Except Err Unit :=
  match Product.validate_name (.vstr name) with
  | .error e => .error e
  | .ok _ =>
    match Product.validate_brand_id (.vstr brand_id) with
    | .error e => .error e
    | .ok _ =>
      match Product.validate_category_id (.vstr category_id) with
      | .error e => .error e
      | .ok _ =>
        match Product.validate_price price with
        | .error e => .error e
        | .ok _ =>
          match (if description ≠ .vnull then Product.validate_description description
              else .ok ()) with
          | .error e => .error e
          | .ok _ =>
            match Product.validate_stock_quantity stock_quantity with
            | .error e => .error e
            | .ok _ =>
              if images ≠ .vnull then Product.validate_images images else .ok ()

/-- `Product._brand_exists` (the catch-all handler never fires in the
model since the existence read cannot raise here). -/
def Product.brand_exists (brand_id : String) (db : DB) : Bool :=
  check_item_exists (get_brand_pk brand_id) (get_brand_sk brand_id) db

/-- `Product._category_exists`. -/
def Product.category_exists (category_id : String) (db : DB) : Bool :=
  check_item_exists (get_category_pk category_id) (get_category_sk category_id) db

/-- `settings.create_product_item`; its parameter order is
`(product_id, name, brand_id, category_id, price, description, sku,
stock_quantity, images)`. -/
def create_product_item (product_id name brand_id category_id : String)
    (price description sku stock_quantity images : Val) (now : String) : Item :=
  [("PK", .vstr (get_product_pk product_id)),
   ("SK", .vstr (get_product_sk product_id)),
   ("brand_id", .vstr brand_id),
   ("product_id", .vstr product_id),
   ("GSI3PK", .vstr ("CATEGORY#" ++ category_id)),
   ("GSI3SK", .vstr product_id),
   ("entity_type", .vstr "product"),
   ("name", .vstr name),
   ("category_id", .vstr category_id),
   ("price", price),
   ("stock_quantity", stock_quantity),
   ("created_at", .vstr now),
   ("updated_at", .vstr now)] ++
  (if pyTruthy description then [("description", description)] else []) ++
  (if pyTruthy sku then [("sku", sku)] else []) ++
  (if pyTruthy images then [("images", images)] else [])

/-- Modelled from the spec: `create_product_list_item` is imported from
`config.settings` by `Product.create` but is not among the sources; §3
defines the product list projection as a second physical item with key
`PRODUCT_LIST#{id}` / `PRODUCT_LIST#{id}`, `GSI3PK="PRODUCT_LIST"` and
`GSI3SK=name.upper()`, carrying the shared product fields.  The
parameters mirror the call site in `Product.create`. -/
def create_product_list_item (product_id name brand_id category_id : String)
    (price description stock_quantity images : Val) (now : String) : Item :=
  [("PK", .vstr ("PRODUCT_LIST#" ++ product_id)),
   ("SK", .vstr ("PRODUCT_LIST#" ++ product_id)),
   ("GSI3PK", .vstr "PRODUCT_LIST"),
   ("GSI3SK", .vstr (pyUpper name)),
   ("brand_id", .vstr brand_id),
   ("product_id", .vstr product_id),
   ("entity_type", .vstr "product"),
   ("name", .vstr name),
   ("category_id", .vstr category_id),
   ("price", price),
   ("stock_quantity", stock_quantity),
   ("created_at", .vstr now),
   ("updated_at", .vstr now)] ++
  (if pyTruthy description then [("description", description)] else []) ++
  (if pyTruthy images then [("images", images)] else [])

/-- `Product.create`.  The source builds the detail item with eight
positional arguments `(product_id, name, brand_id, category_id, price,
description, stock_quantity, images)`; against `create_product_item`'s
parameter list the seventh argument (`stock_quantity`) is bound to the
`sku` parameter and the eighth (`images`) to the `stock_quantity`
parameter, while the `images` parameter keeps its default `None`. -/
def Product.create (name brand_id category_id : String)
    (price description stock_quantity images : Val) (gen_id now : String) (db : DB) :
    Except Err Item × DB :=
  match Product.validate_data name brand_id category_id price description stock_quantity
      images with
  | .error e => (.error e, db)
  | .ok _ =>
    if !Product.brand_exists brand_id db then
      (.error (.notFoundError "Brand not found"), db)
    else if !Product.category_exists category_id db then
      (.error (.notFoundError "Category not found"), db)
    else
      let product_item :=
        create_product_item gen_id name brand_id category_id price description
          stock_quantity images .vnull now
      let product_list_item :=
        create_product_list_item gen_id name brand_id category_id price description
          stock_quantity images now
      let db₁ := put_item product_item db
      let db₂ := put_item product_list_item db₁
      (.ok product_item, db₂)

/-- `Product.get`. -/
def Product.get (product_id : String) (db : DB) : Option Item :=
  if product_id = "" then none
  else get_item (get_product_pk product_id) (get_product_sk product_id) db

/-- `Product.exists`. -/
def Product.entityExists (product_id : String) (db : DB) : Bool :=
  if product_id = "" then false
  else check_item_exists (get_product_pk product_id) (get_product_sk product_id) db

/-- `Product.update`: validates and referentially checks the updated
fields, stamps `updated_at`, recomputes `GSI3PK` on a category change,
updates the detail item, then mirrors the updates (with `GSI3SK` on a
name change and never `GSI3PK`) into the list-projection item. -/
def Product.update (product_id : String) (updates : List (String × Val)) (now : String)
    (db : DB) : Except Err Item × DB :=
  if !Product.entityExists product_id db then
    (.error (.notFoundError "Product not found"), db)
  else if updates.any (fun p =>
      !(["name", "brand_id", "category_id", "price", "description", "stock_quantity",
         "images"].contains p.1)) then
    (.error (.validationError "Invalid fields"), db)
  else
    match (if hasAttr updates "name" then
        Product.validate_name (getAttrD updates "name" .vnull) else .ok ()) with
    | .error e => (.error e, db)
    | .ok _ =>
      match ((if hasAttr updates "brand_id" then
          match Product.validate_brand_id (getAttrD updates "brand_id" .vnull) with
          | .error e => .error e
          | .ok _ =>
            if !Product.brand_exists (strOfVal (getAttrD updates "brand_id" .vnull)) db then
              .error (.notFoundError "Brand not found")
            else .ok ()
        else .ok ()) : Except Err Unit) with
      | .error e => (.error e, db)
      | .ok _ =>
        match ((if hasAttr updates "category_id" then
            match Product.validate_category_id (getAttrD updates "category_id" .vnull) with
            | .error e => .error e
            | .ok _ =>
              if !Product.category_exists
                  (strOfVal (getAttrD updates "category_id" .vnull)) db then
                .error (.notFoundError "Category not found")
              else .ok ()
          else .ok ()) : Except Err Unit) with
        | .error e => (.error e, db)
        | .ok _ =>
          match (if hasAttr updates "price" then
              Product.validate_price (getAttrD updates "price" .vnull) else .ok ()) with
          | .error e => (.error e, db)
          | .ok _ =>
            match (if hasAttr updates "description" then
                Product.validate_description (getAttrD updates "description" .vnull)
              else .ok ()) with
            | .error e => (.error e, db)
            | .ok _ =>
              match (if hasAttr updates "stock_quantity" then
                  Product.validate_stock_quantity (getAttrD updates "stock_quantity" .vnull)
                else .ok ()) with
              | .error e => (.error e, db)
              | .ok _ =>
                match (if hasAttr updates "images" then
                    Product.validate_images (getAttrD updates "images" .vnull)
                  else .ok ()) with
                | .error e => (.error e, db)
                | .ok _ =>
                  let u₁ := setAttr updates "updated_at" (.vstr now)
                  let u₂ :=
                    if hasAttr updates "category_id" then
                      setAttr u₁ "GSI3PK"
                        (.vstr ("CATEGORY#" ++
                          strOfVal (getAttrD updates "category_id" .vnull)))
                    else u₁
                  let r :=
                    update_item (get_product_pk product_id) (get_product_sk product_id)
                      u₂ db
                  let lu₁ :=
                    if hasAttr updates "name" then
                      setAttr u₂ "GSI3SK"
                        (.vstr (pyUpper (strOfVal (getAttrD updates "name" .vnull))))
                    else u₂
                  let lu₂ := if hasAttr lu₁ "GSI3PK" then delAttr lu₁ "GSI3PK" else lu₁
                  let r₂ :=
                    update_item ("PRODUCT_LIST#" ++ product_id)
                      ("PRODUCT_LIST#" ++ product_id) lu₂ r.2
                  (.ok r.1, r₂.2)

/-- `Product.delete`: removes the detail item, then the list-projection
item. -/
def Product.delete (product_id : String) (db : DB) : Bool × DB :=
  if !Product.entityExists product_id db then (false, db)
  else
    let r := delete_item (get_product_pk product_id) (get_product_sk product_id) db
    let r₂ :=
      delete_item ("PRODUCT_LIST#" ++ product_id) ("PRODUCT_LIST#" ++ product_id) r.2
    (r.1.isSome, r₂.2)

/-- Python `+` applied to a stored `stock_quantity` value and an `int`.
A value written as a whole number is read back as an `int`; any
non-numeric value (`None`, a string, a list) raises `TypeError`.  A
non-integral float can never be stored in `stock_quantity`, so that case
is not modelled. -/
def pyAddInt (v : Val) (q : Int) : Except Err Int :=
  match v with
  | .vint n => .ok (n + q)
  | _ => .error (.pyTypeError "unsupported operand types for addition")

/-- `ProductService.update_stock`. -/
def ProductService.update_stock (product_id : String) (stock_quantity : Int)
    (now : String) (db : DB) : Except Err Item × DB :=
  Product.update product_id [("stock_quantity", .vint stock_quantity)] now db

/-- `ProductService.adjust_stock`. -/
def ProductService.adjust_stock (product_id : String) (quantity_change : Int)
    (now : String) (db : DB) : Except Err Item × DB :=
  match Product.get product_id db with
  | none => (.error (.notFoundError "Product not found"), db)
  | some product =>
    match pyAddInt (getAttrD product "stock_quantity" (.vint 0)) quantity_change with
    | .error e => (.error e, db)
    | .ok new_stock =>
      if new_stock < 0 then
        (.error (.validationError "Stock quantity cannot be negative after adjustment"), db)
      else ProductService.update_stock product_id new_stock now db

/-- `ProductService.get_product_by_sku` calls `Product.get_by_sku`; the
`Product` class defines no such attribute, so the lookup raises
`AttributeError` on every input. -/
def ProductService.get_product_by_sku (sku : String) (db : DB) :
    Except Err (Option Item) × DB :=
  (.error (.pyAttributeError "type object Product has no attribute get_by_sku"), db)

/-- Ordered pointwise Python equality of two attribute maps: same keys in
the same order, values equal under Python `==`.  Items built by the same
code path agree on key order, and this entails Python dict equality. -/
def pyEqItem : Item → Item → Bool
  | [], [] => true
  | (k₁, v₁) :: t₁, (k₂, v₂) :: t₂ => k₁ == k₂ && pyEq v₁ v₂ && pyEqItem t₁ t₂
  | _, _ => false

/-- An item without its `created_at` / `updated_at` attributes, for the
"equal modulo timestamps" comparison. -/
def dropTimestamps (it : Item) : Item :=
  it.filter (fun p => p.1 != "created_at" && p.1 != "updated_at")

theorem data_of_append (a b : String) : (a ++ b).data = a.data ++ b.data := by
  cases a; cases b; rfl

theorem keyNe_brand_product (x y : String) : "BRAND#" ++ x ≠ "PRODUCT#" ++ y := by
  intro h
  have h₂ : ("BRAND#" ++ x).data = ("PRODUCT#" ++ y).data := by rw [h]
  rw [data_of_append, data_of_append] at h₂
  rw [show "BRAND#".data = ['B', 'R', 'A', 'N', 'D', '#'] from rfl,
    show "PRODUCT#".data = ['P', 'R', 'O', 'D', 'U', 'C', 'T', '#'] from rfl] at h₂
  simp at h₂

theorem keyNe_brand_productList (x y : String) : "BRAND#" ++ x ≠ "PRODUCT_LIST#" ++ y := by
  intro h
  have h₂ : ("BRAND#" ++ x).data = ("PRODUCT_LIST#" ++ y).data := by rw [h]
  rw [data_of_append, data_of_append] at h₂
  rw [show "BRAND#".data = ['B', 'R', 'A', 'N', 'D', '#'] from rfl,
    show "PRODUCT_LIST#".data =
      ['P', 'R', 'O', 'D', 'U', 'C', 'T', '_', 'L', 'I', 'S', 'T', '#'] from rfl] at h₂
  simp at h₂

theorem keyNe_category_product (x y : String) : "CATEGORY#" ++ x ≠ "PRODUCT#" ++ y := by
  intro h
  have h₂ : ("CATEGORY#" ++ x).data = ("PRODUCT#" ++ y).data := by rw [h]
  rw [data_of_append, data_of_append] at h₂
  rw [show "CATEGORY#".data = ['C', 'A', 'T', 'E', 'G', 'O', 'R', 'Y', '#'] from rfl,
    show "PRODUCT#".data = ['P', 'R', 'O', 'D', 'U', 'C', 'T', '#'] from rfl] at h₂
  simp at h₂

theorem keyNe_category_productList (x y : String) :
    "CATEGORY#" ++ x ≠ "PRODUCT_LIST#" ++ y := by
  intro h
  have h₂ : ("CATEGORY#" ++ x).data = ("PRODUCT_LIST#" ++ y).data := by rw [h]
  rw [data_of_append, data_of_append] at h₂
  rw [show "CATEGORY#".data = ['C', 'A', 'T', 'E', 'G', 'O', 'R', 'Y', '#'] from rfl,
    show "PRODUCT_LIST#".data =
      ['P', 'R', 'O', 'D', 'U', 'C', 'T', '_', 'L', 'I', 'S', 'T', '#'] from rfl] at h₂
  simp at h₂

theorem keyNe_productList_product (x : String) : "PRODUCT_LIST#" ++ x ≠ "PRODUCT#" ++ x := by
  intro h
  have h₂ : ("PRODUCT_LIST#" ++ x).data = ("PRODUCT#" ++ x).data := by rw [h]
  rw [data_of_append, data_of_append] at h₂
  rw [show "PRODUCT_LIST#".data =
      ['P', 'R', 'O', 'D', 'U', 'C', 'T', '_', 'L', 'I', 'S', 'T', '#'] from rfl,
    show "PRODUCT#".data = ['P', 'R', 'O', 'D', 'U', 'C', 'T', '#'] from rfl] at h₂
  have h₃ := congrArg List.length h₂
  simp [List.length_append] at h₃
  omega

theorem lookup_erase_ne (t : List ((String × String) × Item)) (pk sk pk' sk' : String)
    (h : ¬(pk' = pk ∧ sk' = sk)) :
    lookupTable (eraseTable t pk sk) pk' sk' = lookupTable t pk' sk' := by
  induction t with
  | nil => rfl
  | cons e t ih =>
    obtain ⟨⟨k₁, k₂⟩, it⟩ := e
    by_cases he : k₁ = pk ∧ k₂ = sk
    · have hne : ¬(k₁ = pk' ∧ k₂ = sk') := by
        rintro ⟨rfl, rfl⟩
        exact h ⟨he.1.symm ▸ rfl, he.2.symm ▸ rfl⟩
      simp only [eraseTable, lookupTable, if_pos he, if_neg hne, ih]
    · by_cases hl : k₁ = pk' ∧ k₂ = sk'
      · simp only [eraseTable, lookupTable, if_neg he, if_pos hl]
      · simp only [eraseTable, lookupTable, if_neg he, if_neg hl, ih]

theorem lookup_erase_self (t : List ((String × String) × Item)) (pk sk : String) :
    lookupTable (eraseTable t pk sk) pk sk = none := by
  induction t with
  | nil => rfl
  | cons e t ih =>
    obtain ⟨⟨k₁, k₂⟩, it⟩ := e
    by_cases he : k₁ = pk ∧ k₂ = sk
    · simp only [eraseTable, if_pos he, ih]
    · simp only [eraseTable, lookupTable, if_neg he, ih]

theorem lookup_replace_ne (t : List ((String × String) × Item)) (pk sk pk' sk' : String)
    (nit : Item) (h : ¬(pk' = pk ∧ sk' = sk)) :
    lookupTable (replaceTable t pk sk nit) pk' sk' = lookupTable t pk' sk' := by
  induction t with
  | nil => rfl
  | cons e t ih =>
    obtain ⟨⟨k₁, k₂⟩, it⟩ := e
    by_cases he : k₁ = pk ∧ k₂ = sk
    · have hne : ¬(k₁ = pk' ∧ k₂ = sk') := by
        rintro ⟨rfl, rfl⟩
        exact h ⟨he.1.symm ▸ rfl, he.2.symm ▸ rfl⟩
      simp only [replaceTable, lookupTable, if_pos he, if_neg hne, ih]
    · by_cases hl : k₁ = pk' ∧ k₂ = sk'
      · simp only [replaceTable, lookupTable, if_neg he, if_pos hl]
      · simp only [replaceTable, lookupTable, if_neg he, if_neg hl, ih]

theorem lookup_replace_self (t : List ((String × String) × Item)) (pk sk : String)
    (it nit : Item) (h : lookupTable t pk sk = some it) :
    lookupTable (replaceTable t pk sk nit) pk sk = some nit := by
  induction t with
  | nil => simp [lookupTable] at h
  | cons e t ih =>
    obtain ⟨⟨k₁, k₂⟩, it₁⟩ := e
    by_cases he : k₁ = pk ∧ k₂ = sk
    · simp only [replaceTable, lookupTable, if_pos he]
    · simp only [lookupTable, if_neg he] at h
      simp only [replaceTable, lookupTable, if_neg he]
      exact ih h

theorem getAttr_setAttr_self (it : Item) (k : String) (v : Val) :
    getAttr? (setAttr it k v) k = some v := by
  induction it with
  | nil => simp [setAttr, getAttr?]
  | cons p t ih =>
    obtain ⟨k₁, v₁⟩ := p
    by_cases he : k₁ = k
    · simp [setAttr, getAttr?, he]
    · simp [setAttr, getAttr?, he, ih]

theorem getAttr_setAttr_ne (it : Item) (k k' : String) (v : Val) (h : k' ≠ k) :
    getAttr? (setAttr it k v) k' = getAttr? it k' := by
  induction it with
  | nil => simp [setAttr, getAttr?, Ne.symm h]
  | cons p t ih =>
    obtain ⟨k₁, v₁⟩ := p
    by_cases he : k₁ = k
    · subst he
      simp [setAttr, getAttr?, Ne.symm h]
    · by_cases hk : k₁ = k'
      · subst hk
        simp [setAttr, getAttr?, he, h]
      · simp [setAttr, getAttr?, he, hk, ih]

theorem getAttr_mapVals (f : Val → Val) (it : Item) (k : String) :
    getAttr? (mapVals f it) k = (getAttr? it k).map f := by
  induction it with
  | nil => rfl
  | cons p t ih =>
    obtain ⟨k₁, v₁⟩ := p
    by_cases he : k₁ = k
    · simp [mapVals, getAttr?, he]
    · simp [mapVals, getAttr?, he, ih]

theorem mapVals_mapVals (f g : Val → Val) (it : Item) :
    mapVals f (mapVals g it) = mapVals (fun v => f (g v)) it := by
  induction it with
  | nil => rfl
  | cons p t ih => simp [mapVals, ih]

theorem dropTimestamps_mapVals (f : Val → Val) (it : Item) :
    dropTimestamps (mapVals f it) = mapVals f (dropTimestamps it) := by
  induction it with
  | nil => rfl
  | cons p t ih =>
    obtain ⟨k₁, v₁⟩ := p
    by_cases hk : (k₁ != "created_at" && k₁ != "updated_at") = true
    · simp [dropTimestamps, mapVals, List.filter, hk] at ih ⊢
      exact ih
    · simp [dropTimestamps, mapVals, List.filter, hk] at ih ⊢
      exact ih

theorem normDec_spec (e : Nat) : ∀ m : Int,
    (normDec m e).2 ≤ e ∧ (normDec m e).1 * (10 : Int) ^ (e - (normDec m e).2) = m := by
  induction e with
  | zero => intro m; simp [normDec]
  | succ e ih =>
    intro m
    by_cases hm : m % 10 == 0
    · have hdvd : (10 : Int) ∣ m := by
        refine Int.dvd_of_emod_eq_zero ?_
        simpa using hm
      obtain ⟨h₁, h₂⟩ := ih (m / 10)
      constructor
      · simp only [normDec, if_pos hm]
        omega
      · simp only [normDec, if_pos hm]
        have hsub : e + 1 - (normDec (m / 10) e).2 = (e - (normDec (m / 10) e).2) + 1 := by
          omega
        rw [hsub, pow_succ, ← mul_assoc, h₂]
        exact Int.ediv_mul_cancel hdvd
    · simp only [normDec, if_neg hm]
      simp

theorem pyEq_conv_roundtrip (v : Val) :
    pyEq (convDecToFloat (convFloatsToDec v)) v = true := by
  have hnum : ∀ m : Int, ∀ e : Nat, ∀ w : Val, w.num? = some (m, e) →
      (∀ s, w ≠ .vstr s) → (∀ xs, w ≠ .vlist xs) →
      pyEq (convDecToFloat (.vdec m e)) w = true := by
    intro m e w hw hs hl
    by_cases hdvd : (10 : Int) ^ e ∣ m
    · have hcv : convDecToFloat (.vdec m e) = .vint (m / (10 : Int) ^ e) := by
        simp [convDecToFloat, hdvd]
      rw [hcv]
      cases w with
      | vstr s => exact absurd rfl (hs s)
      | vlist xs => exact absurd rfl (hl xs)
      | vnull => simp [Val.num?] at hw
      | vint n =>
        simp only [Val.num?, Option.some.injEq, Prod.mk.injEq] at hw
        obtain ⟨rfl, rfl⟩ := hw
        simp [pyEq, Val.num?]
      | vfloat m₁ e₁ =>
        simp only [Val.num?, Option.some.injEq, Prod.mk.injEq] at hw
        obtain ⟨rfl, rfl⟩ := hw
        simp [pyEq, Val.num?, pow_zero, mul_one, Int.ediv_mul_cancel hdvd]
      | vdec m₁ e₁ =>
        simp only [Val.num?, Option.some.injEq, Prod.mk.injEq] at hw
        obtain ⟨rfl, rfl⟩ := hw
        simp [pyEq, Val.num?, pow_zero, mul_one, Int.ediv_mul_cancel hdvd]
    · have hcv : convDecToFloat (.vdec m e) = .vfloat (normDec m e).1 (normDec m e).2 := by
        simp [convDecToFloat, hdvd]
      obtain ⟨hle, hval⟩ := normDec_spec e m
      have hkey : (normDec m e).1 * (10 : Int) ^ e = m * (10 : Int) ^ (normDec m e).2 := by
        calc (normDec m e).1 * (10 : Int) ^ e
            = (normDec m e).1 * (10 : Int) ^ ((e - (normDec m e).2) + (normDec m e).2) := by
              rw [Nat.sub_add_cancel hle]
          _ = (normDec m e).1 * (10 : Int) ^ (e - (normDec m e).2) *
                (10 : Int) ^ (normDec m e).2 := by
              rw [pow_add, mul_assoc]
          _ = m * (10 : Int) ^ (normDec m e).2 := by rw [hval]
      rw [hcv]
      cases w with
      | vstr s => exact absurd rfl (hs s)
      | vlist xs => exact absurd rfl (hl xs)
      | vnull => simp [Val.num?] at hw
      | vint n =>
        simp only [Val.num?, Option.some.injEq, Prod.mk.injEq] at hw
        obtain ⟨rfl, rfl⟩ := hw
        simp at hdvd
      | vfloat m₁ e₁ =>
        simp only [Val.num?, Option.some.injEq, Prod.mk.injEq] at hw
        obtain ⟨rfl, rfl⟩ := hw
        simp [pyEq, Val.num?, hkey]
      | vdec m₁ e₁ =>
        simp only [Val.num?, Option.some.injEq, Prod.mk.injEq] at hw
        obtain ⟨rfl, rfl⟩ := hw
        simp [pyEq, Val.num?, hkey]
  cases v with
  | vnull => rfl
  | vint n => simp [convFloatsToDec, convDecToFloat, pyEq, Val.num?]
  | vstr s => simp [convFloatsToDec, convDecToFloat, pyEq]
  | vlist xs => simp [convFloatsToDec, convDecToFloat, pyEq]
  | vfloat m e =>
    have : convFloatsToDec (.vfloat m e) = .vdec m e := rfl
    rw [this]
    exact hnum m e _ rfl (fun s h => by cases h) (fun xs h => by cases h)
  | vdec m e =>
    have : convFloatsToDec (.vdec m e) = .vdec m e := rfl
    rw [this]
    exact hnum m e _ rfl (fun s h => by cases h) (fun xs h => by cases h)

theorem pyEqItem_conv (it : Item) :
    pyEqItem (mapVals (fun v => convDecToFloat (convFloatsToDec v)) it) it = true := by
  induction it with
  | nil => rfl
  | cons p t ih =>
    obtain ⟨k, v⟩ := p
    simp [mapVals, pyEqItem, pyEq_conv_roundtrip v, ih]

/-- Whether an operation result is a success. -/
def isOkB : Except Err Item → Bool
  | .ok _ => true
  | .error _ => false

/-- A canonical brand UUID used in concrete runs. -/
def uuidB : String := "11111111-1111-1111-1111-111111111111"

/-- A canonical category UUID used in concrete runs. -/
def uuidC : String := "22222222-2222-2222-2222-222222222222"

/-- A canonical generated UUID used in concrete runs. -/
def uuidP : String := "33333333-3333-3333-3333-333333333333"

/-- A concrete stored brand item. -/
def brandItemA : Item := create_brand_item uuidB "Acme" "A fine acme brand" none "T0"

/-- A concrete stored category item. -/
def catItemA : Item := create_category_item uuidC "Gadgets" "Electronic gadgets" "T0"

/-- A store holding one brand and one category. -/
def dbA : DB :=
  ⟨[(("BRAND#" ++ uuidB, "BRAND#" ++ uuidB), brandItemA),
    (("CATEGORY#" ++ uuidC, "CATEGORY#" ++ uuidC), catItemA)], false⟩

/-- The same store with the GSI-3 query path failing. -/
def dbFail : DB :=
  ⟨[(("BRAND#" ++ uuidB, "BRAND#" ++ uuidB), brandItemA),
    (("CATEGORY#" ++ uuidC, "CATEGORY#" ++ uuidC), catItemA)], true⟩

/-- C8: validation accepts and rejects exactly at the documented
boundaries: a name of trimmed length 1 is rejected and length 2 accepted;
a description of length 9 rejected and length 10 accepted; price
999999.99 accepted and 1000000.00 rejected; a price showing 3 decimal
places rejected; stock quantity -1 rejected and 0 accepted. -/
theorem claim8_validation_boundaries :
    Brand.validate_name (.vstr "a") =
      .error (.validationError "Brand name must be at least 2 characters long") ∧
    Brand.validate_name (.vstr "ab") = .ok () ∧
    Brand.validate_description (.vstr "123456789") =
      .error (.validationError "Brand description must be at least 10 characters long") ∧
    Brand.validate_description (.vstr "1234567890") = .ok () ∧
    Product.validate_price (.vfloat 99999999 2) = .ok () ∧
    Product.validate_price (.vfloat 1000000 0) =
      .error (.validationError "Price cannot exceed 999999.99") ∧
    Product.validate_price (.vfloat 19999 3) =
      .error (.validationError "Price cannot have more than 2 decimal places") ∧
    Product.validate_stock_quantity (.vint (-1)) =
      .error (.validationError "Stock quantity cannot be negative") ∧
    Product.validate_stock_quantity (.vint 0) = .ok () := by
  decide

/-- C2 fails on the code: `Product.create` passes its arguments to
`create_product_item` positionally, so the supplied stock quantity 10
lands in the `sku` field and the supplied images value in
`stock_quantity`, while the `images` attribute is never written.  With
`stock_quantity=10` and no images the assembled item carries
`stock_quantity=None` and `sku=10`; with an images list it carries that
list as its `stock_quantity`. -/
theorem claim2_stock_quantity_misassigned :
    ((Product.create "Widget" uuidB uuidC (.vfloat 1999 2) .vnull (.vint 10) .vnull
        uuidP "T1" dbA).1.map
      (fun it => (getAttr? it "stock_quantity", getAttr? it "sku", getAttr? it "images"))) =
      .ok (some .vnull, some (.vint 10), none) ∧
    ((Product.create "Widget" uuidB uuidC (.vfloat 1999 2) .vnull (.vint 10)
        (.vlist ["http://img.example.com/w.jpg"]) uuidP "T1" dbA).1.map
      (fun it => (getAttr? it "stock_quantity", getAttr? it "images"))) =
      .ok (some (.vlist ["http://img.example.com/w.jpg"]), none) := by
  decide

/-- C4 fails on the code: `ProductService.get_product_by_sku` raises
`AttributeError` (the `Product` class has no `get_by_sku`), which is none
of the four documented error kinds; likewise `Category.update` of the
name raises `TypeError` (wrong keyword argument).  Modelled errors
outside the taxonomy witness the violation. -/
theorem claim4_error_taxonomy_violated :
    (ProductService.get_product_by_sku "WIDGET-001" dbA).1 =
      .error (.pyAttributeError "type object Product has no attribute get_by_sku") ∧
    Err.inTaxonomy (.pyAttributeError "type object Product has no attribute get_by_sku")
      = false ∧
    (Category.update uuidC [("name", .vstr "Tools")] "T1" dbA).1 =
      .error (.pyTypeError "name_exists got an unexpected keyword argument exclude_brand_id") ∧
    Err.inTaxonomy
      (.pyTypeError "name_exists got an unexpected keyword argument exclude_brand_id")
      = false := by
  decide

/-- C5 holds for Brand but fails on the code for Category: updating a
brand with its own current name succeeds (its id is excluded from the
uniqueness scan), but `Category.update` passes the exclusion under the
keyword `exclude_brand_id`, which `Category._name_exists` does not
accept, so renaming a category — even to its own current name — raises
`TypeError` instead of succeeding. -/
theorem claim5_own_name_update :
    isOkB (Brand.update uuidB [("name", .vstr "Acme")] "T1" dbA).1 = true ∧
    Category.update uuidC [("name", .vstr "Gadgets")] "T1" dbA =
      (.error (.pyTypeError "name_exists got an unexpected keyword argument exclude_brand_id"),
        dbA) := by
  decide

/-- C6 fails on the code: with the GSI-3 uniqueness query failing (and a
duplicate name even present in the store), `Brand.create` and
`Category.create` still succeed — the store failure is swallowed by
`_name_exists` and treated as "name does not exist" instead of surfacing
as `DatabaseError`. -/
theorem claim6_counterexample :
    isOkB (Brand.create "Acme" "Another acme brand" none uuidP "T1" dbFail).1 = true ∧
    isOkB (Category.create "Gadgets" "Another gadget category" uuidP "T1" dbFail).1
      = true := by
  decide

/-- C6 amended: when the GSI-3 uniqueness query fails during
`Brand.create` / `Category.create`, the failure is caught inside
`_name_exists` and treated as "name does not exist"; the create proceeds
and succeeds (no `DatabaseError` — and possibly a duplicate). -/
theorem claim6_name_check_failure_suppressed :
    (∀ name description website gen_id now db,
      db.gsi3Fails = true →
      Brand.validate_data name description website = .ok () →
      Brand.create name description website gen_id now db =
        (.ok (create_brand_item gen_id name description website now),
          put_item (create_brand_item gen_id name description website now) db)) ∧
    (∀ name description gen_id now db,
      db.gsi3Fails = true →
      Category.validate_data name description = .ok () →
      Category.create name description gen_id now db =
        (.ok (create_category_item gen_id name description now),
          put_item (create_category_item gen_id name description now) db)) := by
  constructor
  · intro name description website gen_id now db hfail hval
    simp [Brand.create, hval, Brand.name_exists, query_gsi3, hfail]
  · intro name description gen_id now db hfail hval
    simp [Category.create, hval, Category.name_exists, query_gsi3, hfail]

/-- Witness for the amended C6 at concrete inputs. -/
theorem claim6_name_check_failure_suppressed_witness :
    Brand.create "Acme" "Another acme brand" none uuidP "T1" dbFail =
      (.ok (create_brand_item uuidP "Acme" "Another acme brand" none "T1"),
        put_item (create_brand_item uuidP "Acme" "Another acme brand" none "T1") dbFail) ∧
    Category.create "Gadgets" "Another gadget category" uuidP "T1" dbFail =
      (.ok (create_category_item uuidP "Gadgets" "Another gadget category" "T1"),
        put_item (create_category_item uuidP "Gadgets" "Another gadget category" "T1")
          dbFail) :=
  ⟨claim6_name_check_failure_suppressed.1 "Acme" "Another acme brand" none uuidP "T1"
      dbFail (by decide) (by decide),
    claim6_name_check_failure_suppressed.2 "Gadgets" "Another gadget category" uuidP "T1"
      dbFail (by decide) (by decide)⟩

/-- A concrete stored product detail item. -/
def prodItemA : Item :=
  create_product_item uuidP "Widget" uuidB uuidC (.vfloat 1999 2) .vnull .vnull
    (.vint 10) .vnull "T0"

/-- A concrete stored product list-projection item. -/
def prodListItemA : Item :=
  create_product_list_item uuidP "Widget" uuidB uuidC (.vfloat 1999 2) .vnull
    (.vint 10) .vnull "T0"

/-- A store holding a brand, a category and a product (both physical
items). -/
def dbFull : DB :=
  ⟨[(("BRAND#" ++ uuidB, "BRAND#" ++ uuidB), brandItemA),
    (("CATEGORY#" ++ uuidC, "CATEGORY#" ++ uuidC), catItemA),
    (("PRODUCT#" ++ uuidP, "PRODUCT#" ++ uuidP), prodItemA),
    (("PRODUCT_LIST#" ++ uuidP, "PRODUCT_LIST#" ++ uuidP), prodListItemA)], false⟩

/-- A store holding only a brand. -/
def dbOnlyBrand : DB :=
  ⟨[(("BRAND#" ++ uuidB, "BRAND#" ++ uuidB), brandItemA)], false⟩

/-- C10: brand and category deletion perform no reverse referential
check: when the entity is stored, delete returns `True`, removes exactly
that entity's item, and leaves every product detail and list-projection
item unchanged (so products may keep dangling `brand_id` /
`category_id` references). -/
theorem claim10_delete_no_reverse_check :
    (∀ db brand_id it, brand_id ≠ "" →
      lookupTable db.table (get_brand_pk brand_id) (get_brand_sk brand_id) = some it →
      (Brand.delete brand_id db).1 = true ∧
      Brand.get brand_id (Brand.delete brand_id db).2 = none ∧
      (∀ pid, Product.get pid (Brand.delete brand_id db).2 = Product.get pid db) ∧
      (∀ pid,
        lookupTable (Brand.delete brand_id db).2.table ("PRODUCT_LIST#" ++ pid)
          ("PRODUCT_LIST#" ++ pid) =
        lookupTable db.table ("PRODUCT_LIST#" ++ pid) ("PRODUCT_LIST#" ++ pid))) ∧
    (∀ db category_id it, category_id ≠ "" →
      lookupTable db.table (get_category_pk category_id) (get_category_sk category_id)
        = some it →
      (Category.delete category_id db).1 = true ∧
      Category.get category_id (Category.delete category_id db).2 = none ∧
      (∀ pid, Product.get pid (Category.delete category_id db).2 = Product.get pid db) ∧
      (∀ pid,
        lookupTable (Category.delete category_id db).2.table ("PRODUCT_LIST#" ++ pid)
          ("PRODUCT_LIST#" ++ pid) =
        lookupTable db.table ("PRODUCT_LIST#" ++ pid) ("PRODUCT_LIST#" ++ pid))) := by
  constructor
  · intro db bid it hbid hl
    have hex : Brand.entityExists bid db = true := by
      simp [Brand.entityExists, check_item_exists, hbid, hl]
    have hdel : Brand.delete bid db =
        (true,
          { db with table := eraseTable db.table (get_brand_pk bid) (get_brand_sk bid) }) := by
      simp [Brand.delete, hex, delete_item, hl]
    refine ⟨by rw [hdel], ?_, ?_, ?_⟩
    · rw [hdel]
      simp [Brand.get, hbid, get_item, lookup_erase_self]
    · intro pid
      rw [hdel]
      by_cases hpid : pid = ""
      · simp [Product.get, hpid]
      · simp only [Product.get, hpid, if_false, get_item]
        rw [lookup_erase_ne]
        rintro ⟨h₁, -⟩
        simp only [get_product_pk, get_brand_pk] at h₁
        exact keyNe_brand_product bid pid h₁.symm
    · intro pid
      rw [hdel]
      simp only
      rw [lookup_erase_ne]
      rintro ⟨h₁, -⟩
      simp only [get_brand_pk] at h₁
      exact keyNe_brand_productList bid pid h₁.symm
  · intro db cid it hcid hl
    have hex : Category.entityExists cid db = true := by
      simp [Category.entityExists, check_item_exists, hcid, hl]
    have hdel : Category.delete cid db =
        (true,
          { db with table :=
              eraseTable db.table (get_category_pk cid) (get_category_sk cid) }) := by
      simp [Category.delete, hex, delete_item, hl]
    refine ⟨by rw [hdel], ?_, ?_, ?_⟩
    · rw [hdel]
      simp only [Category.get, hcid, if_false, get_item]
      rw [show get_category_sk cid = get_category_pk cid from rfl, lookup_erase_self]
      rfl
    · intro pid
      rw [hdel]
      by_cases hpid : pid = ""
      · simp [Product.get, hpid]
      · simp only [Product.get, hpid, if_false, get_item]
        rw [lookup_erase_ne]
        rintro ⟨h₁, -⟩
        simp only [get_product_pk, get_category_pk] at h₁
        exact keyNe_category_product cid pid h₁.symm
    · intro pid
      rw [hdel]
      simp only
      rw [lookup_erase_ne]
      rintro ⟨h₁, -⟩
      simp only [get_category_pk] at h₁
      exact keyNe_category_productList cid pid h₁.symm

/-- Witness for C10 at concrete inputs. -/
theorem claim10_delete_no_reverse_check_witness :
    ((Brand.delete uuidB dbFull).1 = true ∧
      Brand.get uuidB (Brand.delete uuidB dbFull).2 = none ∧
      Product.get uuidP (Brand.delete uuidB dbFull).2 = Product.get uuidP dbFull) ∧
    ((Category.delete uuidC dbFull).1 = true ∧
      Product.get uuidP (Category.delete uuidC dbFull).2 = Product.get uuidP dbFull) :=
  have hb := claim10_delete_no_reverse_check.1 dbFull uuidB brandItemA (by decide) (by decide)
  have hc :=
    claim10_delete_no_reverse_check.2 dbFull uuidC catItemA (by decide) (by decide)
  ⟨⟨hb.1, hb.2.1, hb.2.2.1 uuidP⟩, ⟨hc.1, hc.2.2.1 uuidP⟩⟩

/-- C7: the referential checks — `Product.create` with an unknown brand
or category fails with `NotFoundError` before writing anything, and
`Product.update` to an unknown category fails with `NotFoundError`
leaving the store (both product items included) untouched. -/
theorem claim7_referential_checks :
    (∀ name brand_id category_id price description stock_quantity images gen_id now db,
      Product.validate_data name brand_id category_id price description stock_quantity
        images = .ok () →
      Product.brand_exists brand_id db = false →
      Product.create name brand_id category_id price description stock_quantity images
        gen_id now db = (.error (.notFoundError "Brand not found"), db)) ∧
    (∀ name brand_id category_id price description stock_quantity images gen_id now db,
      Product.validate_data name brand_id category_id price description stock_quantity
        images = .ok () →
      Product.brand_exists brand_id db = true →
      Product.category_exists category_id db = false →
      Product.create name brand_id category_id price description stock_quantity images
        gen_id now db = (.error (.notFoundError "Category not found"), db)) ∧
    (∀ db product_id x now,
      Product.entityExists product_id db = true →
      Product.validate_category_id (.vstr x) = .ok () →
      Product.category_exists x db = false →
      Product.update product_id [("category_id", .vstr x)] now db =
        (.error (.notFoundError "Category not found"), db)) := by
  refine ⟨?_, ?_, ?_⟩
  · intro name brand_id category_id price description stock_quantity images gen_id now db
      hval hbe
    simp [Product.create, hval, hbe]
  · intro name brand_id category_id price description stock_quantity images gen_id now db
      hval hbe hce
    simp [Product.create, hval, hbe, hce]
  · intro db product_id x now hex hvx hce
    simp [Product.update, hex, hasAttr, getAttr?, getAttrD, strOfVal, hvx, hce]

/-- Witness for C7 at concrete inputs. -/
theorem claim7_referential_checks_witness :
    Product.create "Widget" uuidB uuidC (.vfloat 1999 2) .vnull (.vint 0) .vnull uuidP
      "T1" ⟨[], false⟩ = (.error (.notFoundError "Brand not found"), ⟨[], false⟩) ∧
    Product.create "Widget" uuidB uuidC (.vfloat 1999 2) .vnull (.vint 0) .vnull uuidP
      "T1" dbOnlyBrand = (.error (.notFoundError "Category not found"), dbOnlyBrand) ∧
    Product.update uuidP [("category_id", .vstr "44444444-4444-4444-4444-444444444444")]
      "T1" dbFull =
      (.error (.notFoundError "Category not found"), dbFull) :=
  ⟨claim7_referential_checks.1 "Widget" uuidB uuidC (.vfloat 1999 2) .vnull (.vint 0)
      .vnull uuidP "T1" ⟨[], false⟩ (by decide) (by decide),
    claim7_referential_checks.2.1 "Widget" uuidB uuidC (.vfloat 1999 2) .vnull (.vint 0)
      .vnull uuidP "T1" dbOnlyBrand (by decide) (by decide) (by decide),
    claim7_referential_checks.2.2 dbFull uuidP "44444444-4444-4444-4444-444444444444"
      "T1" (by decide) (by decide) (by decide)⟩

/-- C1: whenever a create succeeds, getting the returned id yields the
item the create returned, equal modulo the `created_at` / `updated_at`
timestamp attributes (under Python `==`, which renders stored decimals
back as numbers of equal value), for Brand, Category and Product
alike. -/
theorem claim1_create_get_roundtrip :
    (∀ name description website gen_id now db item db',
      Brand.create name description website gen_id now db = (.ok item, db') →
      gen_id ≠ "" →
      getAttr? item "brand_id" = some (.vstr gen_id) ∧
      Brand.get gen_id db' = some (mapVals convDecToFloat (mapVals convFloatsToDec item)) ∧
      pyEqItem (dropTimestamps (mapVals convDecToFloat (mapVals convFloatsToDec item)))
        (dropTimestamps item) = true) ∧
    (∀ name description gen_id now db item db',
      Category.create name description gen_id now db = (.ok item, db') →
      gen_id ≠ "" →
      getAttr? item "category_id" = some (.vstr gen_id) ∧
      Category.get gen_id db' =
        some (mapVals convDecToFloat (mapVals convFloatsToDec item)) ∧
      pyEqItem (dropTimestamps (mapVals convDecToFloat (mapVals convFloatsToDec item)))
        (dropTimestamps item) = true) ∧
    (∀ name brand_id category_id price description stock_quantity images gen_id now db
        item db',
      Product.create name brand_id category_id price description stock_quantity images
        gen_id now db = (.ok item, db') →
      gen_id ≠ "" →
      getAttr? item "product_id" = some (.vstr gen_id) ∧
      Product.get gen_id db' =
        some (mapVals convDecToFloat (mapVals convFloatsToDec item)) ∧
      pyEqItem (dropTimestamps (mapVals convDecToFloat (mapVals convFloatsToDec item)))
        (dropTimestamps item) = true) := by
  refine ⟨?_, ?_, ?_⟩
  · intro name description website gen_id now db item db' h hg
    simp only [Brand.create] at h
    split at h
    · simp at h
    · split at h
      · simp at h
      · simp only [Prod.mk.injEq, Except.ok.injEq] at h
        obtain ⟨h₁, h₂⟩ := h
        subst h₁
        subst h₂
        refine ⟨by simp [create_brand_item, getAttr?], ?_, ?_⟩
        · simp [Brand.get, hg, get_item, put_item, create_brand_item, getStrD, getAttr?,
            lookupTable, get_brand_pk, get_brand_sk]
        · rw [mapVals_mapVals, dropTimestamps_mapVals]
          exact pyEqItem_conv _
  · intro name description gen_id now db item db' h hg
    simp only [Category.create] at h
    split at h
    · simp at h
    · split at h
      · simp at h
      · simp only [Prod.mk.injEq, Except.ok.injEq] at h
        obtain ⟨h₁, h₂⟩ := h
        subst h₁
        subst h₂
        refine ⟨by simp [create_category_item, getAttr?], ?_, ?_⟩
        · simp [Category.get, hg, get_item, put_item, create_category_item, getStrD,
            getAttr?, lookupTable, get_category_pk, get_category_sk]
        · rw [mapVals_mapVals, dropTimestamps_mapVals]
          exact pyEqItem_conv _
  · intro name brand_id category_id price description stock_quantity images gen_id now db
      item db' h hg
    have hkne : "PRODUCT_LIST#" ++ gen_id ≠ "PRODUCT#" ++ gen_id :=
      keyNe_productList_product gen_id
    simp only [Product.create] at h
    split at h
    · simp at h
    · split at h
      · simp at h
      · split at h
        · simp at h
        · simp only [Prod.mk.injEq, Except.ok.injEq] at h
          obtain ⟨h₁, h₂⟩ := h
          subst h₁
          subst h₂
          refine ⟨by simp [create_product_item, getAttr?], ?_, ?_⟩
          · simp [Product.get, hg, get_item, put_item, create_product_item,
              create_product_list_item, getStrD, getAttr?, lookupTable, eraseTable,
              get_product_pk, get_product_sk, hkne, Ne.symm hkne]
          · rw [mapVals_mapVals, dropTimestamps_mapVals]
            exact pyEqItem_conv _

/-- Witness for C1 at concrete inputs (all three entity types). -/
theorem claim1_create_get_roundtrip_witness :
    (getAttr? (create_brand_item uuidP "Acme2" "A second acme brand" none "T1") "brand_id"
        = some (.vstr uuidP) ∧
      Brand.get uuidP (Brand.create "Acme2" "A second acme brand" none uuidP "T1" dbA).2 =
        some (mapVals convDecToFloat (mapVals convFloatsToDec
          (create_brand_item uuidP "Acme2" "A second acme brand" none "T1"))) ∧
      pyEqItem
        (dropTimestamps (mapVals convDecToFloat (mapVals convFloatsToDec
          (create_brand_item uuidP "Acme2" "A second acme brand" none "T1"))))
        (dropTimestamps (create_brand_item uuidP "Acme2" "A second acme brand" none "T1"))
        = true) ∧
    (getAttr? (create_product_item uuidP "Widget" uuidB uuidC (.vfloat 1999 2) .vnull
        (.vint 10) .vnull .vnull "T1") "product_id" = some (.vstr uuidP) ∧
      Product.get uuidP
        (Product.create "Widget" uuidB uuidC (.vfloat 1999 2) .vnull (.vint 10) .vnull
          uuidP "T1" dbA).2 =
        some (mapVals convDecToFloat (mapVals convFloatsToDec
          (create_product_item uuidP "Widget" uuidB uuidC (.vfloat 1999 2) .vnull
            (.vint 10) .vnull .vnull "T1"))) ∧
      pyEqItem
        (dropTimestamps (mapVals convDecToFloat (mapVals convFloatsToDec
          (create_product_item uuidP "Widget" uuidB uuidC (.vfloat 1999 2) .vnull
            (.vint 10) .vnull .vnull "T1"))))
        (dropTimestamps (create_product_item uuidP "Widget" uuidB uuidC (.vfloat 1999 2)
          .vnull (.vint 10) .vnull .vnull "T1")) = true) :=
  ⟨claim1_create_get_roundtrip.1 "Acme2" "A second acme brand" none uuidP "T1" dbA
      (create_brand_item uuidP "Acme2" "A second acme brand" none "T1")
      (Brand.create "Acme2" "A second acme brand" none uuidP "T1" dbA).2
      (by decide) (by decide),
    claim1_create_get_roundtrip.2.2 "Widget" uuidB uuidC (.vfloat 1999 2) .vnull
      (.vint 10) .vnull uuidP "T1" dbA
      (create_product_item uuidP "Widget" uuidB uuidC (.vfloat 1999 2) .vnull (.vint 10)
        .vnull .vnull "T1")
      (Product.create "Widget" uuidB uuidC (.vfloat 1999 2) .vnull (.vint 10) .vnull
        uuidP "T1" dbA).2
      (by decide) (by decide)⟩

/-- C3: whenever `Product.create` succeeds it also writes the list
projection: a second item stored under `PRODUCT_LIST#{id}` /
`PRODUCT_LIST#{id}` whose `GSI3PK` is `PRODUCT_LIST` and whose `GSI3SK`
is the upper-cased product name. -/
theorem claim3_product_list_projection :
    ∀ name brand_id category_id price description stock_quantity images gen_id now db
      item db',
      Product.create name brand_id category_id price description stock_quantity images
        gen_id now db = (.ok item, db') →
      ∃ li,
        lookupTable db'.table ("PRODUCT_LIST#" ++ gen_id) ("PRODUCT_LIST#" ++ gen_id)
          = some li ∧
        getAttr? li "PK" = some (.vstr ("PRODUCT_LIST#" ++ gen_id)) ∧
        getAttr? li "SK" = some (.vstr ("PRODUCT_LIST#" ++ gen_id)) ∧
        getAttr? li "GSI3PK" = some (.vstr "PRODUCT_LIST") ∧
        getAttr? li "GSI3SK" = some (.vstr (pyUpper name)) := by
  intro name brand_id category_id price description stock_quantity images gen_id now db
    item db' h
  simp only [Product.create] at h
  split at h
  · simp at h
  · split at h
    · simp at h
    · split at h
      · simp at h
      · simp only [Prod.mk.injEq, Except.ok.injEq] at h
        obtain ⟨h₁, h₂⟩ := h
        subst h₂
        refine ⟨mapVals convFloatsToDec
          (create_product_list_item gen_id name brand_id category_id price description
            stock_quantity images now), ?_, ?_, ?_, ?_, ?_⟩ <;>
          simp [put_item, create_product_list_item, getStrD, getAttr?, lookupTable,
            mapVals, getAttr_mapVals, convFloatsToDec]

/-- Witness for C3 at concrete inputs. -/
theorem claim3_product_list_projection_witness :
    ∃ li,
      lookupTable
        (Product.create "Widget" uuidB uuidC (.vfloat 1999 2) .vnull (.vint 10) .vnull
          uuidP "T1" dbA).2.table
        ("PRODUCT_LIST#" ++ uuidP) ("PRODUCT_LIST#" ++ uuidP) = some li ∧
      getAttr? li "PK" = some (.vstr ("PRODUCT_LIST#" ++ uuidP)) ∧
      getAttr? li "SK" = some (.vstr ("PRODUCT_LIST#" ++ uuidP)) ∧
      getAttr? li "GSI3PK" = some (.vstr "PRODUCT_LIST") ∧
      getAttr? li "GSI3SK" = some (.vstr (pyUpper "Widget")) :=
  claim3_product_list_projection "Widget" uuidB uuidC (.vfloat 1999 2) .vnull (.vint 10)
    .vnull uuidP "T1" dbA
    (create_product_item uuidP "Widget" uuidB uuidC (.vfloat 1999 2) .vnull (.vint 10)
      .vnull .vnull "T1")
    (Product.create "Widget" uuidB uuidC (.vfloat 1999 2) .vnull (.vint 10) .vnull
      uuidP "T1" dbA).2
    (by decide)

/-- A stored product item whose stock sits at the upper bound. -/
def prodItemMax : Item :=
  create_product_item uuidP "Widget" uuidB uuidC (.vfloat 1999 2) .vnull .vnull
    (.vint 999999) .vnull "T0"

/-- A store holding just that product. -/
def dbMax : DB := ⟨[(("PRODUCT#" ++ uuidP, "PRODUCT#" ++ uuidP), prodItemMax)], false⟩

/-- A stored product item with stock 5. -/
def prodItemFive : Item :=
  create_product_item uuidP "Widget" uuidB uuidC (.vfloat 1999 2) .vnull .vnull
    (.vint 5) .vnull "T0"

/-- A store holding just that product. -/
def dbFive : DB := ⟨[(("PRODUCT#" ++ uuidP, "PRODUCT#" ++ uuidP), prodItemFive)], false⟩

/-- `ProductService.update_stock` on a stored product with an in-range
target: it returns the updated item and stores it (the list-projection
update touches only the `PRODUCT_LIST#` key). -/
theorem update_stock_ok (db : DB) (pid : String) (it : Item) (s : Int) (now : String)
    (hpid : pid ≠ "")
    (hl : lookupTable db.table (get_product_pk pid) (get_product_sk pid) = some it)
    (h0 : 0 ≤ s) (h1 : s ≤ 999999) :
    ∃ db',
      ProductService.update_stock pid s now db =
        (.ok (mapVals convDecToFloat
          (setAttr (setAttr it "stock_quantity" (.vint s)) "updated_at" (.vstr now))),
          db') ∧
      lookupTable db'.table (get_product_pk pid) (get_product_sk pid) =
        some (setAttr (setAttr it "stock_quantity" (.vint s)) "updated_at" (.vstr now)) := by
  have hkne : "PRODUCT_LIST#" ++ pid ≠ "PRODUCT#" ++ pid := keyNe_productList_product pid
  have hex : Product.entityExists pid db = true := by
    simp [Product.entityExists, check_item_exists, hpid, hl]
  have hvs : Product.validate_stock_quantity (.vint s) = .ok () := by
    simp only [Product.validate_stock_quantity]
    rw [if_neg (by omega), if_neg (by omega)]
  simp only [ProductService.update_stock, Product.update, hex]
  simp [update_item, hl, hasAttr, getAttr?, getAttrD, strOfVal, hvs, applyUpdates,
    setAttr, convFloatsToDec, delAttr]
  split
  · rw [lookup_replace_ne]
    · exact lookup_replace_self db.table _ _ it _ hl
    · rintro ⟨h₁, -⟩
      simp only [get_product_pk] at h₁
      exact hkne h₁.symm
  · simp only [lookupTable]
    rw [if_neg, lookup_replace_self db.table _ _ it _ hl]
    rintro ⟨h₁, -⟩
    simp only [get_product_pk] at h₁
    exact hkne h₁

/-- C9 as stated fails at the stock upper bound: with current stock
999999, `adjust_stock(+1)` fails with `ValidationError` ("cannot exceed
999999") leaving stock unchanged, and the follow-up `adjust_stock(-1)`
then succeeds, leaving stock 999998 — not the original 999999. -/
theorem claim9_counterexample :
    (ProductService.adjust_stock uuidP 1 "T1" dbMax).1 =
      .error (.validationError "Stock quantity cannot exceed 999999") ∧
    (ProductService.adjust_stock uuidP 1 "T1" dbMax).2 = dbMax ∧
    ((ProductService.adjust_stock uuidP (-1) "T2"
        (ProductService.adjust_stock uuidP 1 "T1" dbMax).2).1.map
      (fun it => getAttr? it "stock_quantity")) = .ok (some (.vint 999998)) := by
  decide

/-- C9 amended: for a stored product with integer stock `s` and a
positive `delta`, `adjust_stock(-delta)` with `delta > s` fails with
`ValidationError` ("cannot be negative after adjustment") and leaves the
store untouched; and provided `s + delta` does not exceed the 999999
stock bound, `adjust_stock(+delta)` followed by `adjust_stock(-delta)`
succeeds and restores the stock to `s`, both in the returned item and in
the stored one. -/
theorem claim9_adjust_stock_amended :
    ∀ db pid it (s delta : Int) now₁ now₂,
      pid ≠ "" →
      lookupTable db.table (get_product_pk pid) (get_product_sk pid) = some it →
      getAttr? it "stock_quantity" = some (.vint s) →
      0 < delta →
      ((delta > s →
        ProductService.adjust_stock pid (-delta) now₁ db =
          (.error (.validationError "Stock quantity cannot be negative after adjustment"),
            db)) ∧
       (0 ≤ s → s + delta ≤ 999999 →
        ∃ it₁ db₁ it₂ db₂,
          ProductService.adjust_stock pid delta now₁ db = (.ok it₁, db₁) ∧
          ProductService.adjust_stock pid (-delta) now₂ db₁ = (.ok it₂, db₂) ∧
          getAttr? it₂ "stock_quantity" = some (.vint s) ∧
          ∃ sit,
            lookupTable db₂.table (get_product_pk pid) (get_product_sk pid) = some sit ∧
            getAttr? sit "stock_quantity" = some (.vint s))) := by
  intro db pid it s delta now₁ now₂ hpid hl hstock hdelta
  have hget : Product.get pid db = some (mapVals convDecToFloat it) := by
    simp [Product.get, hpid, get_item, hl]
  have hcur : getAttrD (mapVals convDecToFloat it) "stock_quantity" (.vint 0) = .vint s := by
    simp [getAttrD, getAttr_mapVals, hstock, convDecToFloat]
  constructor
  · intro hgt
    simp only [ProductService.adjust_stock, hget, hcur, pyAddInt]
    rw [if_pos (by omega)]
  · intro h0 h1
    have hstep₁ :=
      update_stock_ok db pid it (s + delta) now₁ hpid hl (by omega) (by omega)
    obtain ⟨db₁, hu₁, hl₁⟩ := hstep₁
    have hadj₁ : ProductService.adjust_stock pid delta now₁ db =
        (.ok (mapVals convDecToFloat
          (setAttr (setAttr it "stock_quantity" (.vint (s + delta))) "updated_at"
            (.vstr now₁))), db₁) := by
      simp only [ProductService.adjust_stock, hget, hcur, pyAddInt]
      rw [if_neg (by omega)]
      exact hu₁
    have hget₁ : Product.get pid db₁ =
        some (mapVals convDecToFloat
          (setAttr (setAttr it "stock_quantity" (.vint (s + delta))) "updated_at"
            (.vstr now₁))) := by
      simp [Product.get, hpid, get_item, hl₁]
    have hcur₁ :
        getAttrD (mapVals convDecToFloat
          (setAttr (setAttr it "stock_quantity" (.vint (s + delta))) "updated_at"
            (.vstr now₁))) "stock_quantity" (.vint 0) = .vint (s + delta) := by
      rw [getAttrD, getAttr_mapVals, getAttr_setAttr_ne _ _ _ _ (by simp),
        getAttr_setAttr_self]
      rfl
    have hstep₂ :=
      update_stock_ok db₁ pid
        (setAttr (setAttr it "stock_quantity" (.vint (s + delta))) "updated_at"
          (.vstr now₁)) (s + delta + -delta) now₂ hpid hl₁ (by omega) (by omega)
    obtain ⟨db₂, hu₂, hl₂⟩ := hstep₂
    have hadj₂ : ProductService.adjust_stock pid (-delta) now₂ db₁ =
        (.ok (mapVals convDecToFloat
          (setAttr (setAttr
            (setAttr (setAttr it "stock_quantity" (.vint (s + delta))) "updated_at"
              (.vstr now₁)) "stock_quantity" (.vint (s + delta + -delta))) "updated_at"
            (.vstr now₂))), db₂) := by
      simp only [ProductService.adjust_stock, hget₁, hcur₁, pyAddInt]
      rw [if_neg (by omega)]
      exact hu₂
    refine ⟨_, db₁, _, db₂, hadj₁, hadj₂, ?_, _, hl₂, ?_⟩
    · rw [getAttr_mapVals, getAttr_setAttr_ne _ _ _ _ (by simp), getAttr_setAttr_self,
        show s + delta + -delta = s by ring]
      rfl
    · rw [getAttr_setAttr_ne _ _ _ _ (by simp), getAttr_setAttr_self,
        show s + delta + -delta = s by ring]

/-- Witness for the amended C9 at concrete inputs. -/
theorem claim9_adjust_stock_amended_witness :
    (10 > (5 : Int) →
      ProductService.adjust_stock uuidP (-10) "T1" dbFive =
        (.error (.validationError "Stock quantity cannot be negative after adjustment"),
          dbFive)) ∧
    (0 ≤ (5 : Int) → (5 : Int) + 10 ≤ 999999 →
      ∃ it₁ db₁ it₂ db₂,
        ProductService.adjust_stock uuidP 10 "T1" dbFive = (.ok it₁, db₁) ∧
        ProductService.adjust_stock uuidP (-10) "T2" db₁ = (.ok it₂, db₂) ∧
        getAttr? it₂ "stock_quantity" = some (.vint 5) ∧
        ∃ sit,
          lookupTable db₂.table (get_product_pk uuidP) (get_product_sk uuidP) = some sit ∧
          getAttr? sit "stock_quantity" = some (.vint 5)) :=
  claim9_adjust_stock_amended dbFive uuidP
    (create_product_item uuidP "Widget" uuidB uuidC (.vfloat 1999 2) .vnull .vnull
      (.vint 5) .vnull "T0")
    5 10 "T1" "T2" (by decide) (by decide) (by decide) (by decide)

end Catalog
